import Mathlib

/-!
Shallow embedding of the Invoice-app core (src/lib/invoice-helpers.ts,
src/lib/pdf-helpers.ts, and the item-recompute / invoice-creation steps of
the dashboard pages) together with proofs settling the frozen claims.

JS numbers are modelled as rationals (ℚ): the claims under scrutiny are
about exact arithmetic identities and string shapes, not float rounding.
Strings model JS strings; an optional JS string field that the code tests
with truthiness (`if (x)`) is modelled as a `String` where `""` stands for
both the empty string and an absent field (both are falsy in JS).
-/

namespace InvoiceApp

/-! ## Data model (src/lib/invoice-helpers.ts, lines 15-41) -/

/-- Record `InvoiceItem` from src/lib/invoice-helpers.ts. -/
structure InvoiceItem where
  id : String
  description : String
  quantity : ℚ
  price : ℚ
  total : ℚ
deriving DecidableEq

/-- Result record of `calculateInvoiceTotals`. -/
structure InvoiceTotals where
  subtotal : ℚ
  tax : ℚ
  totalAmount : ℚ
deriving DecidableEq

/-- JS `x || 0` on a number: `0` (and `NaN`, which ℚ does not have) is falsy
and is replaced by `0`; every other number is returned unchanged. -/
def jsOr0 (x : ℚ) : ℚ := if x = 0 then 0 else x

/-- Function `calculateInvoiceTotals` (src/lib/invoice-helpers.ts, lines 68-78):
`subtotal` is the fold of `sum + (item.total || 0)` over the items,
`tax = subtotal * (taxRate / 100)`, `totalAmount = subtotal + tax`.
The source gives `taxRate` a default of `0`; callers here pass it explicitly. -/
def calculateInvoiceTotals (items : List InvoiceItem) (taxRate : ℚ) : InvoiceTotals :=
  let subtotal := items.foldl (fun sum item => sum + jsOr0 item.total) 0
  let tax := subtotal * (taxRate / 100)
  let totalAmount := subtotal + tax
  { subtotal := subtotal, tax := tax, totalAmount := totalAmount }

/-- The line-total recompute step of the edit page
(src/unnamed/part_001, the `useEffect` that maps
`item => ({ ...item, total: item.quantity * item.price })` over the watched
items before invoking `calculateInvoiceTotals`). -/
def updateLineTotals (items : List InvoiceItem) : List InvoiceItem :=
  items.map (fun item => { item with total := item.quantity * item.price })

/-! ## JS string/number helpers used by the allocator and the formatter -/

/-- Auxiliary digit accumulator for `natToString`; mirrors the fuelled
structure of core `Nat.toDigitsCore`, emitting least-significant digits
into the accumulator. The fuel is always given as `n + 1`, which exceeds
the number of decimal digits of `n`. -/
def natToCharsAux : ℕ → ℕ → List Char → List Char
  | 0, _, acc => acc
  | fuel + 1, n, acc =>
    let acc' := Nat.digitChar (n % 10) :: acc
    if n < 10 then acc' else natToCharsAux fuel (n / 10) acc'

/-- JS `n.toString()` for a non-negative integer: its decimal digits. -/
def natToString (n : ℕ) : String := String.mk (natToCharsAux (n + 1) n [])

/-- JS `i.toString()` for an integer: a `-` sign followed by the decimal
digits of the magnitude. -/
def intToString (i : ℤ) : String :=
  (if i < 0 then "-" else "") ++ natToString i.natAbs

/-- JS `String.prototype.padStart(n, c)`: left-pad with `c` up to length `n`. -/
def padStart (s : String) (n : ℕ) (c : Char) : String :=
  String.mk (List.replicate (n - s.length) c) ++ s

/-- Digit-run parser for `jsParseInt`: folds the maximal leading run of
decimal digits into an accumulator, stopping at the first non-digit. -/
def parseNatGo : List Char → ℕ → ℕ
  | [], acc => acc
  | c :: cs, acc =>
    if c.isDigit then parseNatGo cs (acc * 10 + (c.toNat - 48)) else acc

/-- Parses a non-empty leading run of decimal digits; `none` when the first
character is not a digit (JS `parseInt` returns `NaN` then). -/
def parseNatDigits (cs : List Char) : Option ℕ :=
  match cs with
  | [] => none
  | c :: _ => if c.isDigit then some (parseNatGo cs 0) else none

/-- JS `Number.parseInt(s, 10)`: skip leading whitespace, accept an optional
sign, then parse the maximal run of decimal digits; `NaN` (here `none`)
when no digit follows. -/
def jsParseInt (s : String) : Option ℤ :=
  match s.toList.dropWhile (fun c => c.isWhitespace) with
  | '-' :: rest => (parseNatDigits rest).map (fun n => -(n : ℤ))
  | '+' :: rest => (parseNatDigits rest).map (fun n => (n : ℤ))
  | cs => (parseNatDigits cs).map (fun n => (n : ℤ))

/-- The test `lastInvoiceNumber.startsWith("INV-")` from src/lib/invoice-helpers.ts
line 104. -/
def startsWithINV (s : String) : Bool :=
  match s.toList with
  | 'I' :: 'N' :: 'V' :: '-' :: _ => true
  | _ => false

/-- The call `lastInvoiceNumber.replace("INV-", "")` (src/lib/invoice-helpers.ts line
105): JS `replace` with a string pattern substitutes the first occurrence
only; the call site is guarded by `startsWith("INV-")`, so the first
occurrence is the leading prefix and the replacement removes the first four
characters. -/
def dropINV (s : String) : String := String.mk (s.toList.drop 4)

/-! ## Invoice Number Allocator (src/lib/invoice-helpers.ts, lines 80-118) -/

/-- The slice of the `settings` document that `getNextInvoiceNumber` reads.
`none` models a document without the field. -/
structure CompanySettings where
  nextInvoiceNumber : Option ℕ
deriving DecidableEq

/-- The JS truthiness test `if (settings?.nextInvoiceNumber)` on the first
settings document: the stored counter counts only when the document exists,
the field is present, and its value is not `0` (falsy). -/
def counterOf (os : Option CompanySettings) : Option ℕ :=
  match os with
  | none => none
  | some s =>
    match s.nextInvoiceNumber with
    | none => none
    | some n => if n = 0 then none else some n

/-- The two external reads `getNextInvoiceNumber` performs, each of which
can throw (`Except.error`): the first settings document (if any), and the
result of `query(collection("invoices"), orderBy("invoiceNumber", "desc"),
limit(1))` — the lexicographically greatest stored invoice number (if any). -/
structure AllocEnv where
  settings : Except Unit (Option CompanySettings)
  topInvoice : Except Unit (Option String)

/-- Function `getNextInvoiceNumber` (src/lib/invoice-helpers.ts, lines 80-118).
Branch 1: a truthy stored counter `n` yields
`INV-${n.toString().padStart(4, "0")}`.
Branch 2: otherwise the highest stored invoice number, when it starts with
`INV-` and its remainder parses as an integer `k`, yields
`INV-${(k+1).toString().padStart(4, "0")}`.
Branch 3: otherwise `INV-0001`.
The surrounding `try/catch` turns any failing read into `INV-0001`; a read
that the control flow never reaches cannot throw, hence the nested matches. -/
def getNextInvoiceNumber (env : AllocEnv) : String :=
  match env.settings with
  | Except.error _ => "INV-0001"
  | Except.ok os =>
    match counterOf os with
    | some n => "INV-" ++ padStart (natToString n) 4 '0'
    | none =>
      match env.topInvoice with
      | Except.error _ => "INV-0001"
      | Except.ok none => "INV-0001"
      | Except.ok (some last) =>
        if startsWithINV last then
          match jsParseInt (dropINV last) with
          | some k => "INV-" ++ padStart (intToString (k + 1)) 4 '0'
          | none => "INV-0001"
        else "INV-0001"

/-- A snapshot of the two Firestore collections the allocator touches:
the `settings` collection (list of documents; the code uses `docs[0]`) and
the `invoiceNumber` fields of the `invoices` collection. -/
structure DbState where
  settingsDocs : List CompanySettings
  invoiceNumbers : List String
deriving DecidableEq

/-- Lexicographic (codepoint-wise) strict order on character lists — the
order Firestore uses on UTF-8 string fields. -/
def listCharLt : List Char → List Char → Bool
  | [], [] => false
  | [], _ :: _ => true
  | _ :: _, [] => false
  | a :: as, b :: bs =>
    if a.toNat < b.toNat then true
    else if b.toNat < a.toNat then false
    else listCharLt as bs

/-- Lexicographic strict order on strings. -/
def strLtB (a b : String) : Bool := listCharLt a.toList b.toList

/-- The greater of two strings in lexicographic order. -/
def maxStr (a b : String) : String := if strLtB a b then b else a

/-- The lexicographically greatest element of a list of strings — what
`orderBy("invoiceNumber", "desc") limit(1)` returns over the snapshot. -/
def maxString (l : List String) : Option String :=
  l.foldl
    (fun acc x =>
      match acc with
      | none => some x
      | some m => some (maxStr m x))
    none

/-- Builds the allocator's read results from a database snapshot in which
both reads succeed. -/
def envOf (s : DbState) : AllocEnv :=
  { settings := Except.ok s.settingsDocs.head?,
    topInvoice := Except.ok (maxString s.invoiceNumbers) }

/-- Allocation `getNextInvoiceNumber` run against a concrete snapshot with both reads
succeeding. -/
def getNextInvoiceNumberDb (s : DbState) : String :=
  getNextInvoiceNumber (envOf s)

/-- Invoice creation as performed by `NewInvoicePage.onSubmit`
(src/unnamed/part_002): `addDoc(collection(db, "invoices"), invoiceData)`
appends a new invoice document carrying the displayed number; no write to
the `settings` collection (and hence to `nextInvoiceNumber`) happens. -/
def createInvoice (s : DbState) (invNum : String) : DbState :=
  { settingsDocs := s.settingsDocs, invoiceNumbers := s.invoiceNumbers ++ [invNum] }

/-! ## Money/Locale Formatter (src/lib/pdf-helpers.ts, lines 97-105 and 285-302) -/

/-- Function `getCurrencySymbol` (src/lib/pdf-helpers.ts, lines 285-298): a closed
switch over the currency code with `$` as default symbol. -/
def getCurrencySymbol (currency : String) : String :=
  if currency = "SAR" then "ر.س"
  else if currency = "USD" then "$"
  else if currency = "EUR" then "€"
  else if currency = "GBP" then "£"
  else "$"

/-- JS `ToString` of an integral number of magnitude at least `10 ^ 21`, as
produced inside `Number.prototype.toFixed`: every IEEE double of that
magnitude is an integer and its decimal exponent exceeds 21, so `ToString`
uses exponential notation — the significant digits (trailing zeros
stripped), a dot after the first digit when more than one remains, then
`e+` and the exponent. -/
def jsExpToString (m : ℕ) : String :=
  let ds := (natToString m).data
  let sig := (ds.reverse.dropWhile (fun c => c = '0')).reverse
  match sig with
  | [] => "0"
  | [d] => String.mk [d] ++ "e+" ++ natToString (ds.length - 1)
  | d :: rest => String.mk [d] ++ "." ++ String.mk rest ++ "e+" ++ natToString (ds.length - 1)

/-- JS `amount.toFixed(2)` over an exact rational, following the ECMA-262
steps: the sign is extracted first; a magnitude of at least `10 ^ 21` is
rendered as `ToString(x)` (exponential form — `(1e21).toFixed(2)` is
`"1e+21"`, not a two-decimal string); otherwise the magnitude times 100 is
rounded to the nearest integer `n` (ties to the larger `n`) and printed as
`intPart.d₁d₂`. IEEE doubles of magnitude at least `10 ^ 21` are integral,
so the exponential branch takes the integer part of the exact rational. -/
def toFixed2 (amount : ℚ) : String :=
  let sign := if amount < 0 then "-" else ""
  let x := |amount|
  if 10 ^ 21 ≤ x then
    sign ++ jsExpToString (Int.floor x).natAbs
  else
    let n : ℕ := (Int.floor (x * 100 + 1 / 2)).natAbs
    sign ++
      (natToString (n / 100) ++ String.mk ['.', Nat.digitChar (n / 10 % 10), Nat.digitChar (n % 10)])

/-- Function `formatCurrency` (src/lib/pdf-helpers.ts, lines 300-302):
`` `${symbol} ${amount.toFixed(2)}` ``; the `currency` argument is accepted
and ignored, exactly as in the source. -/
def formatCurrency (amount : ℚ) (currency : String) (symbol : String) : String :=
  symbol ++ " " ++ toFixed2 amount

/-- The date values the inner `formatDate` of `generatePdf` can receive:
a falsy value (`null`/`undefined`); a parseable instant carrying its
`toLocaleDateString` rendering under each of the two locales the code
selects between; an unparseable value, for which `new Date(x)` is an
Invalid Date and `toLocaleDateString` returns the string `"Invalid Date"`
without throwing; or a Firestore-timestamp-like value whose `toDate()`
throws, which the `catch` turns into `"Invalid Date"`. -/
inductive DateVal where
  | absent
  | valid (en : String) (ar : String)
  | invalid
  | toDateThrows
deriving DecidableEq

/-- The inner `formatDate` of `generatePdf` (src/lib/pdf-helpers.ts, lines
97-105), closed over the `isArabic` flag that selects the locale. -/
def formatDate (isArabic : Bool) : DateVal → String
  | DateVal.absent => "N/A"
  | DateVal.valid en ar => if isArabic then ar else en
  | DateVal.invalid => "Invalid Date"
  | DateVal.toDateThrows => "Invalid Date"

/-! ## Document Layout Engine (src/lib/pdf-helpers.ts, lines 4-282)

`generatePdf` is a single forward pass that issues jsPDF drawing calls while
advancing a vertical cursor. It is embedded as a pure function producing
the ordered list of drawing instructions plus the saved filename. The two
quantities the code obtains from the rendering backend — the `finalY` of
the item table and the line count of `splitTextToSize` — together with the
two `try/catch`-guarded backend failures (logo embedding, table layout) are
supplied as a `Measure` record, and the wall clock read by `new Date()` in
the footer is supplied as a `Clock` record. -/

/-- jsPDF horizontal alignment values used by the code. -/
inductive Align where
  | left
  | right
  | center
deriving DecidableEq

/-- One jsPDF drawing instruction issued by `generatePdf`: the `doc.text`,
`doc.addImage`, `doc.rect`, `doc.setFontSize`, `doc.setFillColor` and
`autoTable` calls, in issue order. The `table` op records the start
cursor, header and body cell strings, the direction-dependent default
horizontal alignment, and the fixed per-column alignments of the three
numeric columns. -/
inductive DrawOp where
  | text (content : String) (x : ℚ) (y : ℚ) (a : Align)
  | textWrapped (content : String) (x : ℚ) (y : ℚ) (a : Align) (maxWidth : ℚ)
  | image (url : String) (x : ℚ) (y : ℚ) (w : ℚ) (h : ℚ)
  | rect (x : ℚ) (y : ℚ) (w : ℚ) (h : ℚ)
  | setFontSize (size : ℚ)
  | setFillColor (r : ℕ) (g : ℕ) (b : ℕ)
  | table (startY : ℚ) (head : List String) (body : List (List String))
      (descAlign : Align) (numAligns : List Align)
deriving DecidableEq

/-- Backend responses consumed by `generatePdf`: `finalY` models
`doc.lastAutoTable.finalY` as a function of the table's start cursor and
cell contents; `splitLen` models `doc.splitTextToSize(text, width).length`;
`tableFails` and `logoFails` model the two `try/catch`-guarded backend
throws. -/
structure Measure where
  finalY : ℚ → List String → List (List String) → ℚ
  splitLen : String → ℚ → ℕ
  tableFails : Bool
  logoFails : Bool

/-- The wall-clock instant read by `new Date()` in the footer, already
rendered by `toLocaleString()` (default locale) and `toLocaleString("ar-SA")`. -/
structure Clock where
  en : String
  ar : String
deriving DecidableEq

/-- The company-settings fields `generatePdf` reads. `""` models an absent
(falsy) optional field. -/
structure PdfSettings where
  language : String
  logoUrl : String
  companyName : String
  address : String
  email : String
  phone : String
  website : String
  taxNumber : String
  termsAndConditions : String
  currency : String

/-- The invoice fields `generatePdf` reads. -/
structure PdfInvoice where
  invoiceNumber : String
  date : DateVal
  dueDate : DateVal
  clientName : String
  clientAddress : String
  clientEmail : String
  items : List InvoiceItem
  subtotal : ℚ
  tax : ℚ
  taxRate : ℚ
  totalAmount : ℚ
  notes : String

/-- A4 portrait page width in mm (`doc.internal.pageSize.getWidth()`). -/
def pageWidth : ℚ := 210

/-- A4 portrait page height in mm. -/
def pageHeight : ℚ := 297

/-- The fixed margin of `generatePdf` (line 14). -/
def pdfMargin : ℚ := 20

/-- JS rendering of a number inside a template literal, matching the JS
output on integers (the only values the claims exercise); a non-integral
rational is shown as `num/den`. -/
def ratToString (q : ℚ) : String :=
  if q.den = 1 then intToString q.num
  else intToString q.num ++ "/" ++ natToString q.den

/-- A body-side text line: anchored at the right margin and right-aligned
when `isAr`, at the left margin and left-aligned otherwise (the
`isArabic ? pageWidth - margin : margin` / `align: textAlign` pattern). -/
def contactLine (isAr : Bool) (content : String) (y : ℚ) : DrawOp :=
  DrawOp.text content (if isAr then pageWidth - pdfMargin else pdfMargin) y
    (if isAr then Align.right else Align.left)

/-- A title-side text line, anchored at the edge opposite the body text
(the `isArabic ? margin : pageWidth - margin` / `align: isArabic ? "left" :
"right"` pattern of the invoice-details lines). -/
def oppText (isAr : Bool) (content : String) (y : ℚ) : DrawOp :=
  DrawOp.text content (if isAr then pdfMargin else pageWidth - pdfMargin) y
    (if isAr then Align.left else Align.right)

/-- Header block (lines 22-36): the logo image when `logoUrl` is truthy
(skipped entirely, cursor included, when `addImage` throws — the `catch`
only logs), else the company name as a 24pt heading at the left margin. -/
def headerBlock (st : PdfSettings) (m : Measure) (y : ℚ) : List DrawOp × ℚ :=
  if st.logoUrl = "" then
    ([DrawOp.setFontSize 24,
      DrawOp.text (if st.companyName = "" then "Company Name" else st.companyName)
        pdfMargin y Align.left],
     y + 15)
  else if m.logoFails then ([], y)
  else ([DrawOp.image st.logoUrl pdfMargin y 50 20], y + 25)

/-- Company contact block (lines 38-76): one line per present optional
field, each advancing the cursor by 5. -/
def contactBlock (isAr : Bool) (st : PdfSettings) (y : ℚ) : List DrawOp × ℚ :=
  let s0 : List DrawOp × ℚ := ([DrawOp.setFontSize 10], y)
  let s1 := if st.address = "" then s0 else
    (s0.1 ++ [contactLine isAr st.address s0.2], s0.2 + 5)
  let s2 := if st.email = "" then s1 else
    (s1.1 ++ [contactLine isAr ((if isAr then "البريد الإلكتروني: " else "Email: ") ++ st.email) s1.2],
     s1.2 + 5)
  let s3 := if st.phone = "" then s2 else
    (s2.1 ++ [contactLine isAr ((if isAr then "الهاتف: " else "Phone: ") ++ st.phone) s2.2],
     s2.2 + 5)
  let s4 := if st.website = "" then s3 else
    (s3.1 ++ [contactLine isAr ((if isAr then "الموقع الإلكتروني: " else "Website: ") ++ st.website) s3.2],
     s3.2 + 5)
  if st.taxNumber = "" then s4 else
    (s4.1 ++ [contactLine isAr ((if isAr then "الرقم الضريبي: " else "Tax Number: ") ++ st.taxNumber) s4.2],
     s4.2 + 5)

/-- Title and metadata block (lines 80-120): the document title and the
invoice number / date / due date lines, all anchored to the edge opposite
the body direction; ends with the `yPos += 15` after the due date. -/
def titleMetaBlock (isAr : Bool) (inv : PdfInvoice) (y : ℚ) : List DrawOp × ℚ :=
  ([DrawOp.setFontSize 16,
    oppText isAr (if isAr then "فاتورة" else "INVOICE") y,
    DrawOp.setFontSize 10,
    oppText isAr ((if isAr then "رقم الفاتورة: " else "Invoice Number: ") ++ inv.invoiceNumber) (y + 10),
    oppText isAr ((if isAr then "التاريخ: " else "Date: ") ++ formatDate isAr inv.date) (y + 15),
    oppText isAr ((if isAr then "تاريخ الاستحقاق: " else "Due Date: ") ++ formatDate isAr inv.dueDate) (y + 20)],
   y + 35)

/-- Client block (lines 122-141): "Bill To:" heading, client name, then
optional address and optional labelled email. -/
def clientBlock (isAr : Bool) (inv : PdfInvoice) (y : ℚ) : List DrawOp × ℚ :=
  let s0 : List DrawOp × ℚ :=
    ([DrawOp.setFontSize 12,
      contactLine isAr (if isAr then "فاتورة إلى:" else "Bill To:") y,
      DrawOp.setFontSize 10,
      contactLine isAr inv.clientName (y + 6)],
     y + 11)
  let s1 := if inv.clientAddress = "" then s0 else
    (s0.1 ++ [contactLine isAr inv.clientAddress s0.2], s0.2 + 5)
  if inv.clientEmail = "" then s1 else
    (s1.1 ++ [contactLine isAr ((if isAr then "البريد الإلكتروني: " else "Email: ") ++ inv.clientEmail) s1.2],
     s1.2 + 5)

/-- JS `a || b` on numbers, as in `item.total || item.quantity * item.price`
(line 161). -/
def jsOrQ (a b : ℚ) : ℚ := if a = 0 then b else a

/-- Item table block (lines 145-189): the `autoTable` call (header row,
body rows, direction-dependent default alignment, fixed numeric-column
alignments), or — when `autoTable` throws — the literal error line at the
left margin. Ends with the line-189 cursor update:
`lastAutoTable.finalY + 10` on success, `yPos + 50` after the fallback
(which itself advanced the cursor by 30). -/
def tableBlock (isAr : Bool) (inv : PdfInvoice) (currency symbol : String)
    (m : Measure) (y : ℚ) : List DrawOp × ℚ :=
  let head := [if isAr then "البند" else "Item",
               if isAr then "الكمية" else "Quantity",
               if isAr then "السعر" else "Price",
               if isAr then "المجموع" else "Total"]
  let body := inv.items.map (fun it =>
    [it.description,
     ratToString it.quantity,
     formatCurrency it.price currency symbol,
     formatCurrency (jsOrQ it.total (it.quantity * it.price)) currency symbol])
  if m.tableFails then
    ([DrawOp.text "Error generating table. Please check console for details."
        pdfMargin (y + 10) Align.left],
     (y + 30) + 50)
  else
    ([DrawOp.table y head body (if isAr then Align.right else Align.left)
        [Align.center, Align.right, Align.right]],
     m.finalY y head body + 10)

/-- Summary block (lines 191-239): the grey 70×45 box against the trailing
edge and the three label/value rows (subtotal, tax with the literal tax
rate, total at 12pt); ends with `yPos += 45`. -/
def summaryBlock (isAr : Bool) (inv : PdfInvoice) (currency symbol : String)
    (y : ℚ) : List DrawOp × ℚ :=
  let sx := if isAr then pdfMargin else pageWidth - pdfMargin - 70
  ([DrawOp.setFillColor 240 240 240,
    DrawOp.rect sx y 70 45,
    DrawOp.text (if isAr then "المجموع الفرعي:" else "Subtotal:")
      (if isAr then sx + 70 - 5 else sx + 5) (y + 10)
      (if isAr then Align.right else Align.left),
    DrawOp.text (formatCurrency inv.subtotal currency symbol)
      (if isAr then sx + 5 else sx + 70 - 5) (y + 10)
      (if isAr then Align.left else Align.right),
    DrawOp.text ((if isAr then "الضريبة" else "Tax") ++ " (" ++ ratToString inv.taxRate ++ "%):")
      (if isAr then sx + 70 - 5 else sx + 5) (y + 20)
      (if isAr then Align.right else Align.left),
    DrawOp.text (formatCurrency inv.tax currency symbol)
      (if isAr then sx + 5 else sx + 70 - 5) (y + 20)
      (if isAr then Align.left else Align.right),
    DrawOp.setFontSize 12,
    DrawOp.text (if isAr then "المجموع:" else "Total:")
      (if isAr then sx + 70 - 5 else sx + 5) (y + 30)
      (if isAr then Align.right else Align.left),
    DrawOp.text (formatCurrency inv.totalAmount currency symbol)
      (if isAr then sx + 5 else sx + 70 - 5) (y + 30)
      (if isAr then Align.left else Align.right)],
   y + 45)

/-- Notes block (lines 241-255): heading plus word-wrapped body when
`invoice.notes` is truthy; the cursor advances by the wrapped line count
times 5 plus 10. -/
def notesBlock (isAr : Bool) (inv : PdfInvoice) (m : Measure) (y : ℚ) :
    List DrawOp × ℚ :=
  if inv.notes = "" then ([], y) else
    ([DrawOp.setFontSize 10,
      contactLine isAr (if isAr then "ملاحظات:" else "Notes:") y,
      DrawOp.textWrapped inv.notes (if isAr then pageWidth - pdfMargin else pdfMargin) (y + 5)
        (if isAr then Align.right else Align.left) (pageWidth - pdfMargin * 2)],
     (y + 5) + (m.splitLen inv.notes (pageWidth - pdfMargin * 2) : ℚ) * 5 + 10)

/-- Terms block (lines 257-269): heading plus word-wrapped terms when
`settings.termsAndConditions` is truthy. -/
def termsBlock (isAr : Bool) (st : PdfSettings) (y : ℚ) : List DrawOp × ℚ :=
  if st.termsAndConditions = "" then ([], y) else
    ([DrawOp.setFontSize 10,
      contactLine isAr (if isAr then "الشروط والأحكام:" else "Terms and Conditions:") y,
      DrawOp.textWrapped st.termsAndConditions (if isAr then pageWidth - pdfMargin else pdfMargin) (y + 5)
        (if isAr then Align.right else Align.left) (pageWidth - pdfMargin * 2)],
     y + 5)

/-- Footer (lines 271-278): a centred 8pt generation-timestamp line at a
fixed distance from the bottom; the only place the wall clock is read. -/
def footerBlock (isAr : Bool) (clock : Clock) : List DrawOp :=
  [DrawOp.setFontSize 8,
   DrawOp.text (if isAr then "تم إنشاؤها في " ++ clock.ar else "Generated on " ++ clock.en)
     (pageWidth / 2) (pageHeight - 10) Align.center]

/-- The artifact `generatePdf` produces: the ordered drawing instructions
and the filename passed to `doc.save`. -/
structure PdfResult where
  ops : List DrawOp
  filename : String
deriving DecidableEq

/-- Function `generatePdf` (src/lib/pdf-helpers.ts, lines 4-282): the full forward
pass, threading the vertical cursor through the blocks in source order and
saving under `Invoice-{invoiceNumber}-{AR|EN}.pdf`. -/
def generatePdf (inv : PdfInvoice) (st : PdfSettings) (m : Measure) (clock : Clock) :
    PdfResult :=
  let isAr := st.language == "ar"
  let currency := if st.currency = "" then "USD" else st.currency
  let symbol := getCurrencySymbol currency
  let hB := headerBlock st m pdfMargin
  let cB := contactBlock isAr st hB.2
  let tB := titleMetaBlock isAr inv (cB.2 + 10)
  let clB := clientBlock isAr inv tB.2
  let tbB := tableBlock isAr inv currency symbol m (clB.2 + 10)
  let smB := summaryBlock isAr inv currency symbol tbB.2
  let ntB := notesBlock isAr inv m smB.2
  let tmB := termsBlock isAr st ntB.2
  { ops := hB.1 ++ cB.1 ++ tB.1 ++ clB.1 ++ tbB.1 ++ smB.1 ++ ntB.1 ++ tmB.1 ++
      footerBlock isAr clock,
    filename := "Invoice-" ++ inv.invoiceNumber ++ "-" ++ (if isAr then "AR" else "EN") ++ ".pdf" }

/-! ## Geometry extraction and mirroring -/

/-- The horizontal geometry of a drawing instruction: its x-anchor and
alignment data, with vertical positions and text contents erased. -/
inductive Geom where
  | text (x : ℚ) (a : Align)
  | wrapped (x : ℚ) (a : Align) (w : ℚ)
  | image (x : ℚ) (w : ℚ)
  | rect (x : ℚ) (w : ℚ)
  | style
  | table (descAlign : Align) (numAligns : List Align)
deriving DecidableEq

/-- Extracts the horizontal geometry of a drawing instruction. -/
def geomOf : DrawOp → Geom
  | DrawOp.text _ x _ a => Geom.text x a
  | DrawOp.textWrapped _ x _ a w => Geom.wrapped x a w
  | DrawOp.image _ x _ w _ => Geom.image x w
  | DrawOp.rect x _ w _ => Geom.rect x w
  | DrawOp.setFontSize _ => Geom.style
  | DrawOp.setFillColor _ _ _ => Geom.style
  | DrawOp.table _ _ _ d ns => Geom.table d ns

/-- Horizontal mirror of an alignment. -/
def flipAlign : Align → Align
  | Align.left => Align.right
  | Align.right => Align.left
  | Align.center => Align.center

/-- Horizontal mirror of a geometry across the page: anchors reflect about
the page width and alignments flip, except that the fixed alignments of
the three numeric table columns are kept (numerals always render
left-to-right, as the spec itself excepts). -/
def mirrorGeom : Geom → Geom
  | Geom.text x a => Geom.text (pageWidth - x) (flipAlign a)
  | Geom.wrapped x a w => Geom.wrapped (pageWidth - x) (flipAlign a) w
  | Geom.image x w => Geom.image (pageWidth - x - w) w
  | Geom.rect x w => Geom.rect (pageWidth - x - w) w
  | Geom.style => Geom.style
  | Geom.table d ns => Geom.table (flipAlign d) ns

/-! ## Concrete sample records used by the closed theorems -/

/-- A minimal invoice: no items, no optional client fields, no notes. -/
def sampleInvoice : PdfInvoice :=
  { invoiceNumber := "INV-0001", date := DateVal.absent, dueDate := DateVal.absent,
    clientName := "Acme Client", clientAddress := "", clientEmail := "",
    items := [], subtotal := 0, tax := 0, taxRate := 0, totalAmount := 0, notes := "" }

/-- English-language settings with only the company name present. -/
def sampleSettingsEn : PdfSettings :=
  { language := "en", logoUrl := "", companyName := "Acme Co", address := "",
    email := "", phone := "", website := "", taxNumber := "",
    termsAndConditions := "", currency := "" }

/-- The same settings with the language tag switched to Arabic. -/
def sampleSettingsAr : PdfSettings :=
  { sampleSettingsEn with language := "ar" }

/-- A concrete backend-measure record: a table advances the cursor by 50,
every text wraps to one line, and neither guarded backend call throws. -/
def sampleMeasure : Measure :=
  { finalY := fun y _ _ => y + 50, splitLen := fun _ _ => 1,
    tableFails := false, logoFails := false }

/-- One rendered wall-clock instant. -/
def sampleClock : Clock :=
  { en := "1/1/2025, 10:00:00 AM", ar := "10:00:00 1/1/2025" }

/-- A later rendered wall-clock instant. -/
def sampleClock2 : Clock :=
  { en := "1/1/2025, 10:00:01 AM", ar := "10:00:01 1/1/2025" }

/-- The text payload of a drawing instruction (empty for non-text ops);
used to observe that two instruction sequences differ. -/
def textContent : DrawOp → String
  | DrawOp.text s _ _ _ => s
  | DrawOp.textWrapped s _ _ _ _ => s
  | _ => ""

/-- A snapshot whose settings document stores `nextInvoiceNumber = 1001`. -/
def counterState : DbState :=
  { settingsDocs := [{ nextInvoiceNumber := some 1001 }], invoiceNumbers := [] }

/-- A snapshot with no settings document and one existing invoice
`INV-0042`. -/
def fallbackState : DbState :=
  { settingsDocs := [], invoiceNumbers := ["INV-0042"] }

/-! # Theorems -/

/-- Folding `fun s it => s + f it` from `a` accumulates `a` plus the sum of
`f` over the list. -/
theorem foldl_add_eq (f : InvoiceItem → ℚ) :
    ∀ (l : List InvoiceItem) (a : ℚ),
      l.foldl (fun s it => s + f it) a = a + (l.map f).sum := by
  intro l
  induction l with
  | nil => intro a; simp
  | cons x xs ih => intro a; simp [ih, add_assoc]

/-- On ℚ, the JS guard `x || 0` is the identity. -/
theorem jsOr0_eq (x : ℚ) : jsOr0 x = x := by
  unfold jsOr0; split <;> simp_all

/-- C1 (counterexample): `calculateInvoiceTotals` trusts the stored `total`
field. With one item of quantity 2, price 3 and a stale stored total of
100, the subtotal is 100, not `2 * 3`, so the calculator does not recompute
line totals from quantity and price. -/
theorem calc_trusts_stored_total :
    (calculateInvoiceTotals
      [{ id := "item-1", description := "Widget", quantity := 2, price := 3, total := 100 }]
      0).subtotal = 100 ∧
    ¬ (calculateInvoiceTotals
      [{ id := "item-1", description := "Widget", quantity := 2, price := 3, total := 100 }]
      0).subtotal = 2 * 3 := by
  constructor
  · simp [calculateInvoiceTotals, jsOr0]
  · simp [calculateInvoiceTotals, jsOr0]
    norm_num

/-- C1 (amended): the calculator sums the stored `total` fields; its
subtotal equals `Σ quantity[i] * price[i]` exactly when the stored totals
are fresh, as arranged by the edit page, which recomputes
`total = quantity * price` on every item (`updateLineTotals`) before
invoking the calculator. -/
theorem calc_subtotal_after_line_recompute (items : List InvoiceItem) (taxRate : ℚ) :
    (calculateInvoiceTotals (updateLineTotals items) taxRate).subtotal =
      (items.map (fun it => it.quantity * it.price)).sum := by
  simp [calculateInvoiceTotals, updateLineTotals, foldl_add_eq, List.map_map,
    Function.comp_def, jsOr0_eq]

/-- C4: for every item list and tax rate (in particular every non-negative
one), `tax = subtotal * (taxRate / 100)` and `totalAmount = subtotal + tax`,
and the empty item list yields all-zero totals. -/
theorem calc_totals_formulas (items : List InvoiceItem) (r : ℚ) (hr : 0 ≤ r) :
    (calculateInvoiceTotals items r).tax =
      (calculateInvoiceTotals items r).subtotal * (r / 100) ∧
    (calculateInvoiceTotals items r).totalAmount =
      (calculateInvoiceTotals items r).subtotal + (calculateInvoiceTotals items r).tax ∧
    calculateInvoiceTotals [] r = { subtotal := 0, tax := 0, totalAmount := 0 } := by
  refine ⟨rfl, rfl, ?_⟩
  simp [calculateInvoiceTotals]

/-- Witness for C4 at the concrete tax rate 10. -/
theorem calc_totals_formulas_witness :
    (0 : ℚ) ≤ 10 ∧
    calculateInvoiceTotals [] 10 = { subtotal := 0, tax := 0, totalAmount := 0 } :=
  ⟨by norm_num, (calc_totals_formulas [] 10 (by norm_num)).2.2⟩

/-- C10: the output of `calculateInvoiceTotals` depends only on the items'
stored `total` fields and the tax rate: lists whose `total` fields agree
pairwise produce identical results, whatever their quantities, prices,
descriptions or ids. -/
theorem calc_depends_only_on_totals (items1 items2 : List InvoiceItem) (r : ℚ)
    (h : items1.map (fun it => it.total) = items2.map (fun it => it.total)) :
    calculateInvoiceTotals items1 r = calculateInvoiceTotals items2 r := by
  have e : ∀ l : List InvoiceItem,
      l.map (fun it => jsOr0 it.total) = l.map (fun it => it.total) := by
    intro l; simp [jsOr0_eq]
  have hs : items1.foldl (fun s it => s + jsOr0 it.total) 0 =
      items2.foldl (fun s it => s + jsOr0 it.total) 0 := by
    rw [foldl_add_eq, foldl_add_eq, e, e, h]
  simp only [calculateInvoiceTotals, hs]

/-- Witness for C10: items that differ in id, description, quantity and
price but share the stored total produce identical totals. -/
theorem calc_depends_only_on_totals_witness :
    ([⟨"a", "pen", 2, 3, 6⟩] : List InvoiceItem).map (fun it => it.total) =
      ([⟨"b", "book", 50, 1, 6⟩] : List InvoiceItem).map (fun it => it.total) ∧
    calculateInvoiceTotals [⟨"a", "pen", 2, 3, 6⟩] 10 =
      calculateInvoiceTotals [⟨"b", "book", 50, 1, 6⟩] 10 :=
  ⟨rfl, calc_depends_only_on_totals _ _ 10 rfl⟩

/-- C3: the allocator's three-branch priority policy at the spec's own
inputs: a stored counter 1001 yields `INV-1001`; no counter with highest
invoice `INV-0042` yields `INV-0043`; neither source yields `INV-0001`. -/
theorem getNextInvoiceNumber_three_branch_policy :
    getNextInvoiceNumber
      { settings := Except.ok (some { nextInvoiceNumber := some 1001 }),
        topInvoice := Except.ok none } = "INV-1001" ∧
    getNextInvoiceNumber
      { settings := Except.ok none,
        topInvoice := Except.ok (some "INV-0042") } = "INV-0043" ∧
    getNextInvoiceNumber
      { settings := Except.ok none, topInvoice := Except.ok none } = "INV-0001" := by
  decide

/-- C7: when the settings lookup throws, or when the settings yield no
truthy counter and the invoice lookup throws, `getNextInvoiceNumber`
returns the fixed baseline `INV-0001` instead of propagating the error
(the function is total, so no error ever escapes). -/
theorem getNextInvoiceNumber_fail_soft (env : AllocEnv) :
    (env.settings = Except.error () → getNextInvoiceNumber env = "INV-0001") ∧
    (∀ os, env.settings = Except.ok os → counterOf os = none →
      env.topInvoice = Except.error () → getNextInvoiceNumber env = "INV-0001") := by
  obtain ⟨s, t⟩ := env
  constructor
  · intro h
    simp only [getNextInvoiceNumber]
    simp_all
  · intro os h1 h2 h3
    simp only [getNextInvoiceNumber]
    simp_all

/-- Witness for C7: both lookups throwing yields `INV-0001`. -/
theorem getNextInvoiceNumber_fail_soft_witness :
    getNextInvoiceNumber { settings := Except.error (), topInvoice := Except.error () } =
      "INV-0001" :=
  (getNextInvoiceNumber_fail_soft _).1 rfl

/-- C2 (counterexample): with a stored counter of 1001, an allocation
followed by an invoice creation carrying the allocated number (which never
advances the counter) followed by a second allocation returns the same
identifier `INV-1001` twice — the second numeric suffix is not strictly
greater than the first. -/
theorem allocator_not_monotone_with_stored_counter :
    getNextInvoiceNumberDb counterState = "INV-1001" ∧
    getNextInvoiceNumberDb
      (createInvoice counterState (getNextInvoiceNumberDb counterState)) =
      getNextInvoiceNumberDb counterState := by
  decide

/-- C2 (amended): invoice creation does not advance the stored counter, so
whenever a truthy counter is stored the allocation after a creation equals
the allocation before it; strict suffix growth across a creation occurs in
the no-counter fallback, where the created invoice joins the collection the
next allocation scans (here `INV-0042 → INV-0043 → INV-0044`). -/
theorem allocator_counter_vs_fallback (s : DbState) (x : String) (n : ℕ)
    (h : s.settingsDocs.head? = some { nextInvoiceNumber := some n }) (hn : n ≠ 0) :
    getNextInvoiceNumberDb (createInvoice s x) = getNextInvoiceNumberDb s ∧
    getNextInvoiceNumberDb fallbackState = "INV-0043" ∧
    getNextInvoiceNumberDb
      (createInvoice fallbackState (getNextInvoiceNumberDb fallbackState)) =
      "INV-0044" := by
  refine ⟨?_, by decide, by decide⟩
  simp [getNextInvoiceNumberDb, envOf, createInvoice, getNextInvoiceNumber, h,
    counterOf, hn]

/-- Witness for C2's amended statement at the stored counter 1001. -/
theorem allocator_counter_vs_fallback_witness :
    counterState.settingsDocs.head? = some { nextInvoiceNumber := some 1001 } ∧
    getNextInvoiceNumberDb (createInvoice counterState "INV-1001") =
      getNextInvoiceNumberDb counterState :=
  ⟨rfl, (allocator_counter_vs_fallback counterState "INV-1001" 1001 rfl (by decide)).1⟩

/-- C9 (counterexample): an unparseable instant renders as
`"Invalid Date"`, which differs from the `"N/A"` marker used for an absent
instant, so absent and unparseable do not both render as the
"not available" marker. -/
theorem formatDate_invalid_differs_from_absent :
    formatDate false DateVal.invalid = "Invalid Date" ∧
    ¬ formatDate false DateVal.invalid = formatDate false DateVal.absent := by
  decide

/-- C9 (amended): in either locale, an absent instant renders as the
literal `"N/A"` marker, while an unparseable instant — whether `new Date`
yields an Invalid Date or a `toDate()` call throws — renders as the literal
`"Invalid Date"` marker; `formatDate` is total, so it never throws. -/
theorem formatDate_markers (isArabic : Bool) :
    formatDate isArabic DateVal.absent = "N/A" ∧
    formatDate isArabic DateVal.invalid = "Invalid Date" ∧
    formatDate isArabic DateVal.toDateThrows = "Invalid Date" :=
  ⟨rfl, rfl, rfl⟩

/-- The character `Nat.digitChar k` of a value below 10 is a decimal digit character. -/
theorem digitChar_isDigit (k : ℕ) (h : k < 10) : (Nat.digitChar k).isDigit = true := by
  interval_cases k <;> decide

/-- Every character `natToCharsAux` adds to a digit-only accumulator is a
decimal digit. -/
theorem natToCharsAux_digits (fuel : ℕ) :
    ∀ (n : ℕ) (acc : List Char), (∀ c ∈ acc, c.isDigit = true) →
      ∀ c ∈ natToCharsAux fuel n acc, c.isDigit = true := by
  induction fuel with
  | zero =>
    intro n acc hacc c hc
    exact hacc c hc
  | succ f ih =>
    intro n acc hacc c hc
    have hacc' : ∀ d ∈ Nat.digitChar (n % 10) :: acc, d.isDigit = true := by
      intro d hd
      rcases List.mem_cons.mp hd with h1 | h2
      · subst h1
        exact digitChar_isDigit _ (Nat.mod_lt _ (by norm_num))
      · exact hacc d h2
    simp only [natToCharsAux] at hc
    split at hc
    · exact hacc' c hc
    · exact ih (n / 10) _ hacc' c hc

/-- Every character of `natToString n` is a decimal digit. -/
theorem natToString_digits (n : ℕ) : ∀ c ∈ (natToString n).data, c.isDigit = true := by
  intro c hc
  exact natToCharsAux_digits (n + 1) n [] (by intro d hd; cases hd) c hc

/-- C8 (counterexample): not every finite amount is rendered to two
decimal places. At `10 ^ 21`, `toFixed(2)` takes the `ToString` branch of
ECMA-262, so `formatCurrency` yields `$ 1e+21` — a string containing no
dot at all, hence not of the symbol-space-integer-dot-two-digits shape. -/
theorem formatCurrency_large_exponential :
    formatCurrency ((10 : ℚ) ^ 21) "USD" (getCurrencySymbol "USD") = "$ 1e+21" ∧
    ¬ (∃ (pre : List Char) (d1 d2 : Char),
      (formatCurrency ((10 : ℚ) ^ 21) "USD" (getCurrencySymbol "USD")).data =
        (getCurrencySymbol "USD").data ++ ' ' :: (pre ++ ['.', d1, d2]) ∧
      d1.isDigit = true ∧ d2.isDigit = true ∧ '.' ∉ pre) := by
  have habs : |(10 : ℚ) ^ 21| = 10 ^ 21 := abs_of_nonneg (by norm_num)
  have hge : ((10 : ℚ) ^ 21 ≤ 10 ^ 21) := le_refl _
  have hsgn : ¬ ((10 : ℚ) ^ 21 < 0) := by norm_num
  have hfl : Int.floor ((10 : ℚ) ^ 21) = 10 ^ 21 := by norm_num
  have h1 : formatCurrency ((10 : ℚ) ^ 21) "USD" (getCurrencySymbol "USD") = "$ 1e+21" := by
    simp only [formatCurrency, toFixed2, habs, if_pos hge, if_neg hsgn, hfl]
    decide
  refine ⟨h1, ?_⟩
  rintro ⟨pre, d1, d2, hdata, -, -, -⟩
  rw [h1] at hdata
  have hmem : ('.' : Char) ∈ ("$ 1e+21" : String).data := by
    rw [hdata]; simp
  exact absurd hmem (by decide)

/-- C8 (amended): for every finite amount of magnitude below `10 ^ 21`,
`formatCurrency` renders exactly two decimal places — the currency symbol,
a space, a dot-free integer part, then a dot and exactly two digit
characters; at the spec's concrete example `formatCurrency(1234.5, "USD")`
it yields `$ 1234.50`; amounts of magnitude at least `10 ^ 21` render in
JS exponential `ToString` form instead; and every code outside the closed
set {SAR, USD, EUR, GBP} maps to the default `$` symbol. The function is
total, so it never throws. -/
theorem formatCurrency_props (q : ℚ) (c : String) (hq : |q| < 10 ^ 21) :
    (∃ (pre : List Char) (d1 d2 : Char),
      (formatCurrency q c (getCurrencySymbol c)).data =
        (getCurrencySymbol c).data ++ ' ' :: (pre ++ ['.', d1, d2]) ∧
      d1.isDigit = true ∧ d2.isDigit = true ∧ '.' ∉ pre) ∧
    formatCurrency (1234.5 : ℚ) "USD" (getCurrencySymbol "USD") = "$ 1234.50" ∧
    (c ∉ (["SAR", "USD", "EUR", "GBP"] : List String) → getCurrencySymbol c = "$") := by
  have hble : ¬ ((10 : ℚ) ^ 21 ≤ |q|) := not_le.mpr hq
  refine ⟨?_, ?_, ?_⟩
  · refine ⟨(if q < 0 then ['-'] else []) ++
        (natToString ((Int.floor (|q| * 100 + 1 / 2)).natAbs / 100)).data,
      Nat.digitChar ((Int.floor (|q| * 100 + 1 / 2)).natAbs / 10 % 10),
      Nat.digitChar ((Int.floor (|q| * 100 + 1 / 2)).natAbs % 10), ?_, ?_, ?_, ?_⟩
    · simp only [formatCurrency, toFixed2, if_neg hble, String.data_append]
      split <;> simp [natToString]
    · exact digitChar_isDigit _ (Nat.mod_lt _ (by norm_num))
    · exact digitChar_isDigit _ (Nat.mod_lt _ (by norm_num))
    · intro hmem
      rcases List.mem_append.mp hmem with h1 | h2
      · revert h1
        split <;> simp
      · exact absurd (natToString_digits _ _ h2) (by decide)
  · have habs : |(1234.5 : ℚ)| = 1234.5 := abs_of_nonneg (by norm_num)
    have hble2 : ¬ ((10 : ℚ) ^ 21 ≤ (1234.5 : ℚ)) := by norm_num
    have hsgn : ¬ ((1234.5 : ℚ) < 0) := by norm_num
    have hc : Int.floor ((1234.5 : ℚ) * 100 + 1 / 2) = 123450 := by norm_num
    simp only [formatCurrency, toFixed2, habs, if_neg hble2, if_neg hsgn, hc]
    decide
  · intro h
    simp only [List.mem_cons, not_or] at h
    obtain ⟨h1, h2, h3, h4, _⟩ := h
    simp [getCurrencySymbol, h1, h2, h3, h4]

/-- Witness for C8's amended statement at amount `0` and the unrecognized
code `"XYZ"`. -/
theorem formatCurrency_props_witness :
    |(0 : ℚ)| < 10 ^ 21 ∧
    ("XYZ" ∉ (["SAR", "USD", "EUR", "GBP"] : List String)) ∧ getCurrencySymbol "XYZ" = "$" :=
  ⟨by norm_num, by decide, (formatCurrency_props 0 "XYZ" (by norm_num)).2.2 (by decide)⟩

/-- C5 (counterexample): rendering the same invoice and settings at two
different wall-clock instants yields different instruction sequences — the
footer line embeds `new Date()`, which is not part of the input, so two
invocations of `generatePdf` on the same invoice and settings need not be
byte-identical. -/
theorem generatePdf_ops_depend_on_clock :
    (generatePdf sampleInvoice sampleSettingsEn sampleMeasure sampleClock).ops ≠
      (generatePdf sampleInvoice sampleSettingsEn sampleMeasure sampleClock2).ops := by
  intro h
  exact absurd (congrArg (fun l => (l.map textContent).getLast?) h) (by decide)

/-- C5 (amended): rendering is deterministic apart from the generation
timestamp: for any invoice, settings, backend measures and any two clock
readings, the two instruction sequences have the same length and agree on
everything except the final footer instruction (which embeds the clock),
and the artifact filename is identical. -/
theorem generatePdf_deterministic_up_to_footer (inv : PdfInvoice) (st : PdfSettings)
    (m : Measure) (c1 c2 : Clock) :
    (generatePdf inv st m c1).ops.dropLast = (generatePdf inv st m c2).ops.dropLast ∧
    (generatePdf inv st m c1).ops.length = (generatePdf inv st m c2).ops.length ∧
    (generatePdf inv st m c1).filename = (generatePdf inv st m c2).filename := by
  refine ⟨?_, ?_, rfl⟩
  · simp [generatePdf, footerBlock, List.dropLast_append_of_ne_nil]
  · simp [generatePdf, footerBlock]

/-- The header block reads no language-dependent data: switching the
settings' language tag leaves it unchanged. -/
theorem headerBlock_update_language (st : PdfSettings) (l : String) (m : Measure) (y : ℚ) :
    headerBlock { st with language := l } m y = headerBlock st m y := rfl

/-- The contact block ignores the language field of the settings record
(its labels come from the `isAr` flag). -/
theorem contactBlock_update_language (b : Bool) (st : PdfSettings) (l : String) (y : ℚ) :
    contactBlock b { st with language := l } y = contactBlock b st y := rfl

/-- The terms block ignores the language field of the settings record. -/
theorem termsBlock_update_language (b : Bool) (st : PdfSettings) (l : String) (y : ℚ) :
    termsBlock b { st with language := l } y = termsBlock b st y := rfl

/-- RTL/LTR mirroring of the contact block: whatever the cursor positions,
the RTL geometries are the mirrored LTR geometries. -/
theorem contactBlock_mirror (st : PdfSettings) (y y' : ℚ) :
    ((contactBlock true st y).1).map geomOf =
      (((contactBlock false st y').1).map geomOf).map mirrorGeom := by
  by_cases h1 : st.address = "" <;> by_cases h2 : st.email = "" <;>
    by_cases h3 : st.phone = "" <;> by_cases h4 : st.website = "" <;>
    by_cases h5 : st.taxNumber = "" <;>
    simp [contactBlock, h1, h2, h3, h4, h5, contactLine, geomOf, mirrorGeom, flipAlign]

/-- RTL/LTR mirroring of the title/metadata block. -/
theorem titleMetaBlock_mirror (inv : PdfInvoice) (y y' : ℚ) :
    ((titleMetaBlock true inv y).1).map geomOf =
      (((titleMetaBlock false inv y').1).map geomOf).map mirrorGeom := by
  simp [titleMetaBlock, oppText, geomOf, mirrorGeom, flipAlign, pageWidth, pdfMargin]

/-- RTL/LTR mirroring of the client block. -/
theorem clientBlock_mirror (inv : PdfInvoice) (y y' : ℚ) :
    ((clientBlock true inv y).1).map geomOf =
      (((clientBlock false inv y').1).map geomOf).map mirrorGeom := by
  by_cases h1 : inv.clientAddress = "" <;> by_cases h2 : inv.clientEmail = "" <;>
    simp [clientBlock, h1, h2, contactLine, geomOf, mirrorGeom, flipAlign]

/-- RTL/LTR mirroring of the item table block on a successful table render:
the default (description-column) alignment flips, the fixed numeric-column
alignments stay. -/
theorem tableBlock_mirror (inv : PdfInvoice) (cur sym cur' sym' : String)
    (m : Measure) (hm : m.tableFails = false) (y y' : ℚ) :
    ((tableBlock true inv cur sym m y).1).map geomOf =
      (((tableBlock false inv cur' sym' m y').1).map geomOf).map mirrorGeom := by
  simp [tableBlock, hm, geomOf, mirrorGeom, flipAlign]

/-- RTL/LTR mirroring of the summary block: box and label/value anchors
reflect about the page. -/
theorem summaryBlock_mirror (inv : PdfInvoice) (cur sym cur' sym' : String) (y y' : ℚ) :
    ((summaryBlock true inv cur sym y).1).map geomOf =
      (((summaryBlock false inv cur' sym' y').1).map geomOf).map mirrorGeom := by
  simp [summaryBlock, geomOf, mirrorGeom, flipAlign, pageWidth, pdfMargin]
  norm_num

/-- RTL/LTR mirroring of the notes block. -/
theorem notesBlock_mirror (inv : PdfInvoice) (m : Measure) (y y' : ℚ) :
    ((notesBlock true inv m y).1).map geomOf =
      (((notesBlock false inv m y').1).map geomOf).map mirrorGeom := by
  by_cases h : inv.notes = "" <;>
    simp [notesBlock, h, contactLine, geomOf, mirrorGeom, flipAlign]

/-- RTL/LTR mirroring of the terms block. -/
theorem termsBlock_mirror (st : PdfSettings) (y y' : ℚ) :
    ((termsBlock true st y).1).map geomOf =
      (((termsBlock false st y').1).map geomOf).map mirrorGeom := by
  by_cases h : st.termsAndConditions = "" <;>
    simp [termsBlock, h, contactLine, geomOf, mirrorGeom, flipAlign]

/-- The centred footer is its own mirror image. -/
theorem footerBlock_mirror (c : Clock) :
    (footerBlock true c).map geomOf =
      ((footerBlock false c).map geomOf).map mirrorGeom := by
  simp [footerBlock, geomOf, mirrorGeom, flipAlign, pageWidth]
  norm_num

/-- C6 (amended): for every invoice, settings and successful table render,
switching the language tag to RTL leaves the header block (logo or
company-name heading, hard-coded to the left margin) identical, while the
horizontal geometry of every remaining instruction — contact, title,
client, table default alignment, summary box, notes, terms, footer — is
the exact mirror image of the LTR render, with the fixed numeric table
columns exempt. -/
theorem generatePdf_mirror_except_header (inv : PdfInvoice) (st : PdfSettings)
    (m : Measure) (c : Clock) (hL : st.language ≠ "ar") (hT : m.tableFails = false) :
    (generatePdf inv { st with language := "ar" } m c).ops.take
        (headerBlock st m pdfMargin).1.length =
      (generatePdf inv st m c).ops.take (headerBlock st m pdfMargin).1.length ∧
    ((generatePdf inv { st with language := "ar" } m c).ops.drop
        (headerBlock st m pdfMargin).1.length).map geomOf =
      (((generatePdf inv st m c).ops.drop (headerBlock st m pdfMargin).1.length).map
        geomOf).map mirrorGeom := by
  have hb : (st.language == "ar") = false := by simp [hL]
  have hb2 : (({ st with language := "ar" } : PdfSettings).language == "ar") = true := rfl
  constructor
  · simp only [generatePdf, headerBlock_update_language, contactBlock_update_language,
      termsBlock_update_language, hb, hb2, if_true, if_false, Bool.false_eq_true,
      Bool.true_eq_false, ite_false, ite_true, List.append_assoc]
    rw [List.take_left, List.take_left]
  · simp only [generatePdf, headerBlock_update_language, contactBlock_update_language,
      termsBlock_update_language, hb, hb2, if_true, if_false, Bool.false_eq_true,
      Bool.true_eq_false, ite_false, ite_true, List.append_assoc]
    rw [List.drop_left, List.drop_left]
    simp only [List.map_append]
    exact congrArg₂ (· ++ ·) (contactBlock_mirror st _ _)
      (congrArg₂ (· ++ ·) (titleMetaBlock_mirror inv _ _)
        (congrArg₂ (· ++ ·) (clientBlock_mirror inv _ _)
          (congrArg₂ (· ++ ·) (tableBlock_mirror inv _ _ _ _ m hT _ _)
            (congrArg₂ (· ++ ·) (summaryBlock_mirror inv _ _ _ _ _ _)
              (congrArg₂ (· ++ ·) (notesBlock_mirror inv m _ _)
                (congrArg₂ (· ++ ·) (termsBlock_mirror st _ _)
                  (footerBlock_mirror c)))))))

/-- C6 (counterexample): mirroring is not total. For a concrete settings
record with a company-name header, the RTL render's geometry sequence is
not the mirror image of the LTR render's (even with the numeric table
columns exempted): the header heading stays at the left margin with left
alignment in both directions. -/
theorem generatePdf_header_not_mirrored :
    ¬ ((generatePdf sampleInvoice sampleSettingsAr sampleMeasure sampleClock).ops.map geomOf =
      ((generatePdf sampleInvoice sampleSettingsEn sampleMeasure
        sampleClock).ops.map geomOf).map mirrorGeom) := by
  intro h
  simp [generatePdf, headerBlock, contactBlock, titleMetaBlock, clientBlock, tableBlock,
    summaryBlock, notesBlock, termsBlock, footerBlock, contactLine, oppText, geomOf,
    mirrorGeom, flipAlign, sampleInvoice, sampleSettingsEn, sampleSettingsAr, sampleMeasure,
    sampleClock, getCurrencySymbol, formatDate, pageWidth, pdfMargin, pageHeight] at h

/-- Witness for C6's amended statement at a concrete render. -/
theorem generatePdf_mirror_except_header_witness :
    sampleSettingsEn.language ≠ "ar" ∧ sampleMeasure.tableFails = false ∧
    ((generatePdf sampleInvoice { sampleSettingsEn with language := "ar" } sampleMeasure
        sampleClock).ops.take (headerBlock sampleSettingsEn sampleMeasure pdfMargin).1.length =
      (generatePdf sampleInvoice sampleSettingsEn sampleMeasure sampleClock).ops.take
        (headerBlock sampleSettingsEn sampleMeasure pdfMargin).1.length ∧
    ((generatePdf sampleInvoice { sampleSettingsEn with language := "ar" } sampleMeasure
        sampleClock).ops.drop
          (headerBlock sampleSettingsEn sampleMeasure pdfMargin).1.length).map geomOf =
      (((generatePdf sampleInvoice sampleSettingsEn sampleMeasure sampleClock).ops.drop
          (headerBlock sampleSettingsEn sampleMeasure pdfMargin).1.length).map
        geomOf).map mirrorGeom) :=
  ⟨by decide, rfl,
    generatePdf_mirror_except_header sampleInvoice sampleSettingsEn sampleMeasure sampleClock
      (by decide) rfl⟩

end InvoiceApp
